import Mathlib

/-!
# Verification of the libbdgt synchronization core

A shallow embedding of the multi-instance change-synchronization subsystem of
the `libbdgt` personal-finance backend, together with proofs of the behavioural
claims made by its specification.

Embedded components, each translated from the corresponding Rust source file:

* the changelog data model (`src/core/changelog.rs`): `SimpleChangelog`,
  `Changelog`, `Changelog.append`, and the binary round-trip through
  `Changelog.to_vec` / `Changelog.from_slice`;
* the secure buffer (`src/crypto/buffer.rs`): `CryptoBuffer`, its
  zero-on-destruction routine `destroy_data`, the `Drop` handler, and the
  destructive constructor `destructive_from`;
* the git-backed synchronization engine (`src/sync/git_engine.rs`):
  `perform_sync`, `commit_files`, `add_remote`, `remove_remote`,
  `change_remote`, modelled as explicit state transformers over an abstract
  repository state, with an event trace recording the calls the engine makes
  into the `Syncable` collaborator.

Machine integers do not occur on any modelled path; byte sequences are lists
of natural numbers. Fallible Rust functions returning `Result` are modelled
as `Except Error` values.
-/

/-- Modelled from the spec: the error kinds of error handling design section 7
(the module `src/error.rs` is referenced by every source file but is not part
of the provided sources). `ioError` covers filesystem failures,
`transportError` covers repository and remote failures, `serializationError`
covers malformed or unencodable bytes, `remoteAlreadyExists` is the
domain-specific precondition failure of `add_remote`, and `syncableError`
carries a pass-through failure of the `Syncable` implementation. -/
inductive Error where
  | ioError : Error
  | transportError : Error
  | serializationError : Error
  | remoteAlreadyExists : Error
  | syncableError : String → Error
deriving DecidableEq, Repr

/-! ## Changelog data model (`src/core/changelog.rs`) -/

/-- Simple changelog representation for some items: the three ordered
sequences `added`, `changed`, `removed` of entities of one kind. -/
structure SimpleChangelog (T : Type) where
  added : List T
  changed : List T
  removed : List T
deriving DecidableEq, Repr

/-- Creates an empty simple changelog (`SimpleChangelog::new`). -/
def SimpleChangelog.new (T : Type) : SimpleChangelog T :=
  { added := [], changed := [], removed := [] }

/-- Database changelog representation: one `SimpleChangelog` per entity kind.
The four entity types `Account`, `Category`, `Transaction`, `Plan` live in the
storage collaborator and are opaque to this core, so the changelog is
parameterized over them. -/
structure Changelog (A C T P : Type) where
  accounts : SimpleChangelog A
  categories : SimpleChangelog C
  transactions : SimpleChangelog T
  plans : SimpleChangelog P
deriving DecidableEq, Repr

/-- Creates an empty changelog (`Changelog::new`). -/
def Changelog.new (A C T P : Type) : Changelog A C T P :=
  { accounts := SimpleChangelog.new A
    categories := SimpleChangelog.new C
    transactions := SimpleChangelog.new T
    plans := SimpleChangelog.new P }

/-- Appends another changelog to the current one (`Changelog::append`).
The Rust original mutates `self` in place, moving the elements of each of the
twelve `Vec` fields of `changelog` onto the corresponding field of `self` with
`Vec::append`, and returns `Ok(())`; here the updated value is returned inside
`Except.ok`. -/
def Changelog.append {A C T P : Type} (self other : Changelog A C T P) :
    Except Error (Changelog A C T P) :=
  Except.ok
    { accounts :=
        { added := self.accounts.added ++ other.accounts.added
          changed := self.accounts.changed ++ other.accounts.changed
          removed := self.accounts.removed ++ other.accounts.removed }
      categories :=
        { added := self.categories.added ++ other.categories.added
          changed := self.categories.changed ++ other.categories.changed
          removed := self.categories.removed ++ other.categories.removed }
      transactions :=
        { added := self.transactions.added ++ other.transactions.added
          changed := self.transactions.changed ++ other.transactions.changed
          removed := self.transactions.removed ++ other.transactions.removed }
      plans :=
        { added := self.plans.added ++ other.plans.added
          changed := self.plans.changed ++ other.plans.changed
          removed := self.plans.removed ++ other.plans.removed } }

/-! ## Secure buffer (`src/crypto/buffer.rs`) -/

/-- Zeroes a memory block in place (`CryptoBuffer::destroy_data`): the Rust
original walks the byte slice with `iter_mut` and stores `0u8` into every
cell; the model maps every byte of the list to zero. -/
def CryptoBuffer.destroy_data (data : List Nat) : List Nat :=
  data.map (fun _ => 0)

/-- Struct wrapping sensitive data (`CryptoBuffer`): owns a byte buffer. -/
structure CryptoBuffer where
  data : List Nat
deriving DecidableEq, Repr

/-- The `Drop` implementation for `CryptoBuffer`: calls `destroy_data` on the
owned bytes. Rust invokes this handler on every destruction path of the value
(normal scope exit, early return, unwinding); the model exposes the handler as
a function from the buffer to its final state at the moment the backing
memory is released. -/
def CryptoBuffer.drop (buf : CryptoBuffer) : CryptoBuffer :=
  { data := CryptoBuffer.destroy_data buf.data }

/-- The `DestructiveFrom<String>` implementation for `CryptoBuffer`: copies
the byte content of the source string into a fresh buffer, then zeroes the
backing storage of the source with `destroy_data`. The source string is
modelled by its byte sequence; the result pairs the constructed buffer with
the post-construction state of the source bytes. -/
def CryptoBuffer.destructive_from (value : List Nat) : CryptoBuffer × List Nat :=
  let buffer : CryptoBuffer := { data := value }
  (buffer, CryptoBuffer.destroy_data value)

/-! ## Binary encoding of changelogs (`Changelog::to_vec` / `Changelog::from_slice`)

The Rust source delegates the wire format to the external `flexbuffers` crate
(a schemaless, self-describing binary format supporting nested sequences and
variable-length byte strings); the crate itself is not part of this
repository. The encoding is therefore modelled from the specification of the
wire format: every entity is an opaque variable-length byte string, a byte
string is emitted as its length followed by its bytes, a sequence is emitted
as its element count followed by the element encodings back to back, and the
changelog is its twelve sequences (four entity kinds times
added/changed/removed, in declaration order) back to back. -/

/-- Encodes one variable-length byte string: length, then the bytes. -/
def encBytes (b : List Nat) : List Nat :=
  b.length :: b

/-- Decodes one variable-length byte string from the front of the input,
returning it together with the unconsumed remainder. -/
def decBytes : List Nat → Option (List Nat × List Nat)
  | [] => none
  | n :: rest =>
      if n ≤ rest.length then some (rest.take n, rest.drop n) else none

/-- Encodes a sequence of byte strings: element count, then the elements. -/
def encSeq (s : List (List Nat)) : List Nat :=
  s.length :: (s.map encBytes).join

/-- Decodes `n` byte strings from the front of the input. -/
def decSeqAux : Nat → List Nat → Option (List (List Nat) × List Nat)
  | 0, rest => some ([], rest)
  | n + 1, rest => do
      let (b, rest₁) ← decBytes rest
      let (s, rest₂) ← decSeqAux n rest₁
      pure (b :: s, rest₂)

/-- Decodes a counted sequence of byte strings from the front of the input. -/
def decSeq : List Nat → Option (List (List Nat) × List Nat)
  | [] => none
  | n :: rest => decSeqAux n rest

/-- Encodes one `SimpleChangelog` over byte-string entities: the `added`,
`changed` and `removed` sequences back to back. -/
def encSimple (s : SimpleChangelog (List Nat)) : List Nat :=
  encSeq s.added ++ encSeq s.changed ++ encSeq s.removed

/-- Decodes one `SimpleChangelog` over byte-string entities. -/
def decSimple (l : List Nat) : Option (SimpleChangelog (List Nat) × List Nat) := do
  let (a, l₁) ← decSeq l
  let (c, l₂) ← decSeq l₁
  let (r, l₃) ← decSeq l₂
  pure ({ added := a, changed := c, removed := r }, l₃)

/-- A changelog whose entities are opaque byte strings, which is how the
storage collaborator presents `Account`, `Category`, `Transaction` and `Plan`
records to the wire format. -/
abbrev ByteChangelog := Changelog (List Nat) (List Nat) (List Nat) (List Nat)

/-- Encodes a whole changelog: the four per-kind simple changelogs back to
back, in declaration order. -/
def encodeChangelog (c : ByteChangelog) : List Nat :=
  encSimple c.accounts ++ encSimple c.categories ++
    encSimple c.transactions ++ encSimple c.plans

/-- Decodes a whole changelog, requiring the input to be consumed exactly. -/
def decodeChangelog (l : List Nat) : Option ByteChangelog := do
  let (acc, l₁) ← decSimple l
  let (cat, l₂) ← decSimple l₁
  let (tra, l₃) ← decSimple l₂
  let (pla, l₄) ← decSimple l₃
  if l₄.isEmpty then
    pure { accounts := acc, categories := cat, transactions := tra, plans := pla }
  else
    none

/-- Converts a changelog into its binary representation
(`Changelog::to_vec`); fails only on allocation or encoder failure, neither of
which the pure model exhibits. -/
def Changelog.to_vec (c : ByteChangelog) : Except Error (List Nat) :=
  Except.ok (encodeChangelog c)

/-- Creates a changelog from its binary representation
(`Changelog::from_slice`); fails with a `serializationError` when the bytes
are not a valid encoding. -/
def Changelog.from_slice (l : List Nat) : Except Error ByteChangelog :=
  match decodeChangelog l with
  | some c => Except.ok c
  | none => Except.error Error.serializationError

/-! ## Git-backed synchronization engine (`src/sync/git_engine.rs`)

The engine is a state transformer over an abstract repository state. The
state captures exactly the observables the engine touches: the per-instance
diff files of the repository working directory, the commit log with the
`HEAD` reference, the named remotes of the repository, and the entries of the
default git configuration that `commit_files` reads. Functions that in Rust
mutate the repository through `git2` return the updated state explicitly;
`perform_sync` additionally returns the trace of calls it makes, so that
theorems can speak about the arguments handed to the `Syncable`
collaborator. -/

/-- A commit of the repository log: the list of parent commit identifiers
(identifiers index the `commits` list of the state) and the commit message. -/
structure GitCommit where
  parents : List Nat
  message : String
deriving DecidableEq, Repr

/-- The observable state of a `GitSyncEngine` and its repository. -/
structure GitSyncEngineState where
  /-- Instance diff files of the repository working directory: pairs of file
  name (the owning instance) and byte content. -/
  files : List (String × List Nat)
  /-- All commits ever created, in creation order; a commit identifier is an
  index into this list. -/
  commits : List GitCommit
  /-- The commit the `HEAD` reference resolves to; `none` on a freshly
  initialized repository whose `HEAD` is unborn. -/
  headCommit : Option Nat
  /-- Named remotes of the repository: pairs of remote name and url. -/
  remotes : List (String × String)
  /-- The `name` entry of the default git configuration, when present. -/
  configName : Option String
  /-- The `email` entry of the default git configuration, when present. -/
  configEmail : Option String
deriving DecidableEq, Repr

/-- Replaces the content of the named file, leaving other files unchanged. -/
def setFile (files : List (String × List Nat)) (name : String)
    (content : List Nat) : List (String × List Nat) :=
  files.map (fun p => if p.1 == name then (p.1, content) else p)

/-- The `Syncable` collaborator, as the engine sees it
(`src/sync/syncable.rs`): an associated diff type `D`, an associated context
type `Ctx`, and the four fallible capabilities. Timestamps (UTC moments) are
natural numbers. `serialize_diff` returns the bytes it writes into the sink;
`deserialize_diff` consumes the bytes of the named instance file. -/
structure SyncableModel (D Ctx : Type) where
  diff_since : Nat → Except Error D
  merge_diffs : List D → Except Error Unit
  serialize_diff : D → String → Ctx → Except Error (List Nat)
  deserialize_diff : String → List Nat → Except Error D

/-- One observable call the engine makes during a synchronization round,
recording the arguments at the call site. -/
inductive SyncEvent (D : Type) where
  | pullRemote : SyncEvent D
  | diffSince : Nat → SyncEvent D
  | mergeDiffs : List D → SyncEvent D
  | serializeDiff : String → SyncEvent D
  | commitCreated : List Nat → String → SyncEvent D
  | pushRemote : SyncEvent D
deriving DecidableEq, Repr

/-- `GitSyncEngine::commit_files`: stages the touched pathspecs, builds the
author signature from the `name` and `email` entries of the default git
configuration (failing when a lookup fails), resolves `HEAD` to the parent
commit — treating a resolution failure as the absent-head case via `.ok()`,
which yields zero parents on the very first commit and exactly one parent
otherwise — and creates the commit, updating `HEAD`. Returns the updated
state together with the created commit. -/
def GitSyncEngine.commit_files (st : GitSyncEngineState)
    (currentInstance : String) : Except Error (GitSyncEngineState × GitCommit) :=
  match st.configName, st.configEmail with
  | some _, some _ =>
      let message := "Updates from instance " ++ currentInstance
      let parents : List Nat :=
        match st.headCommit with
        | some h => [h]
        | none => []
      let commit : GitCommit := { parents := parents, message := message }
      Except.ok
        ({ st with
            commits := st.commits ++ [commit]
            headCommit := some st.commits.length }, commit)
  | _, _ => Except.error Error.transportError

/-- `GitSyncEngine::perform_sync`, translated line by line from the source:

1. `pull_remote` — an empty placeholder in the source (`// TODO`), so it
   succeeds without effect;
2. `diff_since` is called with `chrono::Utc::now()`, the wall-clock moment of
   the call, passed here as the parameter `now`;
3. `remote_diffs` is bound to `Vec::new()` — the source never reads the other
   instance files (`// TODO`);
4. `merge_diffs` is called on that vector;
5. the diff file of `currentInstance` is opened with
   `write(true).truncate(true)` and no `create` option, which fails with an
   input/output error when the file does not exist; on success the open
   truncates the file and `serialize_diff` writes the encoded local diff;
6. `commit_files` commits the file;
7. `push_remote` — an empty placeholder in the source, succeeding without
   effect.

The result triples the `Result` value with the trace of observable calls and
the final state. A failing step aborts the round, keeping the effects of the
steps already completed. -/
def GitSyncEngine.perform_sync {D Ctx : Type} (st : GitSyncEngineState)
    (now : Nat) (currentInstance : String) (syncable : SyncableModel D Ctx)
    (context : Ctx) :
    Except Error Unit × List (SyncEvent D) × GitSyncEngineState :=
  let trace : List (SyncEvent D) := [SyncEvent.pullRemote]
  match syncable.diff_since now with
  | Except.error e => (Except.error e, trace ++ [SyncEvent.diffSince now], st)
  | Except.ok local_diff =>
    let trace := trace ++ [SyncEvent.diffSince now]
    let remote_diffs : List D := []
    match syncable.merge_diffs remote_diffs with
    | Except.error e =>
        (Except.error e, trace ++ [SyncEvent.mergeDiffs remote_diffs], st)
    | Except.ok _ =>
      let trace := trace ++ [SyncEvent.mergeDiffs remote_diffs]
      if (st.files.lookup currentInstance).isSome then
        match syncable.serialize_diff local_diff currentInstance context with
        | Except.error e =>
            (Except.error e, trace ++ [SyncEvent.serializeDiff currentInstance],
              { st with files := setFile st.files currentInstance [] })
        | Except.ok bytes =>
          let trace := trace ++ [SyncEvent.serializeDiff currentInstance]
          let st₁ := { st with files := setFile st.files currentInstance bytes }
          match GitSyncEngine.commit_files st₁ currentInstance with
          | Except.error e => (Except.error e, trace, st₁)
          | Except.ok (st₂, commit) =>
              (Except.ok (),
                trace ++ [SyncEvent.commitCreated commit.parents commit.message,
                  SyncEvent.pushRemote], st₂)
      else
        (Except.error Error.ioError, trace, st)

/-- `GitSyncEngine::add_remote`: lists the remotes of the repository; when
the list is non-empty, fails with `REMOTE_ALREADY_EXIST` and registers
nothing; otherwise registers the given url under the conventional remote name
`origin`. -/
def GitSyncEngine.add_remote (st : GitSyncEngineState) (remote : String) :
    Except Error Unit × GitSyncEngineState :=
  if st.remotes.isEmpty then
    (Except.ok (), { st with remotes := st.remotes ++ [("origin", remote)] })
  else
    (Except.error Error.remoteAlreadyExists, st)

/-- `GitSyncEngine::remove_remote`: deletes the remote named `origin` via
`git2::Repository::remote_delete`, which fails when no such remote exists. -/
def GitSyncEngine.remove_remote (st : GitSyncEngineState) :
    Except Error Unit × GitSyncEngineState :=
  if (st.remotes.lookup "origin").isSome then
    (Except.ok (), { st with remotes := st.remotes.filter (fun p => p.1 != "origin") })
  else
    (Except.error Error.transportError, st)

/-- `GitSyncEngine::change_remote`: `remove_remote` followed, on success, by
`add_remote` on the new url. -/
def GitSyncEngine.change_remote (st : GitSyncEngineState) (remote : String) :
    Except Error Unit × GitSyncEngineState :=
  match GitSyncEngine.remove_remote st with
  | (Except.ok _, st₁) => GitSyncEngine.add_remote st₁ remote
  | (Except.error e, st₁) => (Except.error e, st₁)

/-- The specified meaning of `change_remote`, written from the words of the
specification: the sequential composition of removing the configured remote
and then adding the new one, with no rollback of the removal when the
addition fails. Used to state the refinement claim that the implementation
behaves exactly as this composition. -/
def change_remote_spec_composition (st : GitSyncEngineState) (remote : String) :
    Except Error Unit × GitSyncEngineState :=
  let step₁ := GitSyncEngine.remove_remote st
  match step₁.1 with
  | Except.ok _ => GitSyncEngine.add_remote step₁.2 remote
  | Except.error e => (Except.error e, step₁.2)

/-- The states of the repository reachable through the engine itself: the
engine only ever registers the single conventional remote `origin`, so the
remote list is empty or a single `origin` entry. -/
def remoteInv (st : GitSyncEngineState) : Prop :=
  st.remotes = [] ∨ ∃ u, st.remotes = [("origin", u)]

/-- A concrete `Syncable` collaborator over diff type `Nat`, used to
instantiate universally quantified theorems on concrete runs: the diff since
moment `t` is `t` itself, merging always succeeds, a diff `d` serializes to
the single byte `d`, and a diff file deserializes to its length. -/
def natSyncable : SyncableModel Nat Unit :=
  { diff_since := fun t => Except.ok t
    merge_diffs := fun _ => Except.ok ()
    serialize_diff := fun d _ _ => Except.ok [d]
    deserialize_diff := fun _ bs => Except.ok bs.length }

/-- A freshly created repository state: `GitSyncEngine::create` without a
remote initializes an empty repository — no files, no commits, an unborn
`HEAD`, no remotes — while the default git configuration carries a user name
and email. -/
def freshEngineState : GitSyncEngineState :=
  { files := []
    commits := []
    headCommit := none
    remotes := []
    configName := some "user"
    configEmail := some "user@example.org" }

/-- A repository state in which two instances `A` and `B` both own a diff
file: instance `B` has published the diff bytes `[3, 1, 2, 3]`, the remote
`origin` is configured, and the configuration carries an identity. -/
def twoInstanceState : GitSyncEngineState :=
  { files := [("A", []), ("B", [3, 1, 2, 3])]
    commits := []
    headCommit := none
    remotes := [("origin", "remote-url")]
    configName := some "user"
    configEmail := some "user@example.org" }

/-- A repository state whose single configured remote is `origin` with the
url `old-url`. -/
def singleRemoteState : GitSyncEngineState :=
  { freshEngineState with remotes := [("origin", "old-url")] }

/-- Decoding a byte string from its encoding followed by any tail recovers
the byte string and leaves exactly the tail. -/
theorem decBytes_encBytes (b t : List Nat) :
    decBytes (encBytes b ++ t) = some (b, t) := by
  simp [encBytes, decBytes, List.take_append, List.drop_append,
    Nat.le_add_right]

/-- Decoding `s.length` byte strings from the concatenated encodings of `s`
followed by any tail recovers `s` and leaves exactly the tail. -/
theorem decSeqAux_enc (s : List (List Nat)) (t : List Nat) :
    decSeqAux s.length ((s.map encBytes).join ++ t) = some (s, t) := by
  induction s generalizing t with
  | nil => simp [decSeqAux]
  | cons b s ih =>
      simp [decSeqAux, List.append_assoc, decBytes_encBytes, ih]

/-- Decoding a counted sequence from its encoding followed by any tail
recovers the sequence and leaves exactly the tail. -/
theorem decSeq_encSeq (s : List (List Nat)) (t : List Nat) :
    decSeq (encSeq s ++ t) = some (s, t) := by
  simp [encSeq, decSeq, decSeqAux_enc]

/-- Decoding a simple changelog from its encoding followed by any tail
recovers it and leaves exactly the tail. -/
theorem decSimple_encSimple (s : SimpleChangelog (List Nat)) (t : List Nat) :
    decSimple (encSimple s ++ t) = some (s, t) := by
  simp [encSimple, decSimple, List.append_assoc, decSeq_encSeq]

/-- Decoding a simple changelog from exactly its encoding recovers it with
nothing left over. -/
theorem decSimple_encSimple_nil (s : SimpleChangelog (List Nat)) :
    decSimple (encSimple s) = some (s, []) := by
  have h := decSimple_encSimple s []
  simpa using h

/-- C3: for all changelogs `a` and `b`, `a.append(b)` returns `Ok`, and the
resulting changelog has, for every entity kind and every field among added,
changed and removed, the corresponding field of `a` concatenated with that of
`b` in order; consequently every field length is the sum of the two operand
lengths, so no entity is dropped or deduplicated. -/
theorem changelog_append_concat {A C T P : Type} (a b : Changelog A C T P) :
    ∃ a₂, a.append b = Except.ok a₂ ∧
      a₂.accounts.added = a.accounts.added ++ b.accounts.added ∧
      a₂.accounts.changed = a.accounts.changed ++ b.accounts.changed ∧
      a₂.accounts.removed = a.accounts.removed ++ b.accounts.removed ∧
      a₂.categories.added = a.categories.added ++ b.categories.added ∧
      a₂.categories.changed = a.categories.changed ++ b.categories.changed ∧
      a₂.categories.removed = a.categories.removed ++ b.categories.removed ∧
      a₂.transactions.added = a.transactions.added ++ b.transactions.added ∧
      a₂.transactions.changed = a.transactions.changed ++ b.transactions.changed ∧
      a₂.transactions.removed = a.transactions.removed ++ b.transactions.removed ∧
      a₂.plans.added = a.plans.added ++ b.plans.added ∧
      a₂.plans.changed = a.plans.changed ++ b.plans.changed ∧
      a₂.plans.removed = a.plans.removed ++ b.plans.removed ∧
      a₂.accounts.added.length = a.accounts.added.length + b.accounts.added.length ∧
      a₂.accounts.changed.length = a.accounts.changed.length + b.accounts.changed.length ∧
      a₂.accounts.removed.length = a.accounts.removed.length + b.accounts.removed.length ∧
      a₂.categories.added.length = a.categories.added.length + b.categories.added.length ∧
      a₂.categories.changed.length = a.categories.changed.length + b.categories.changed.length ∧
      a₂.categories.removed.length = a.categories.removed.length + b.categories.removed.length ∧
      a₂.transactions.added.length = a.transactions.added.length + b.transactions.added.length ∧
      a₂.transactions.changed.length = a.transactions.changed.length + b.transactions.changed.length ∧
      a₂.transactions.removed.length = a.transactions.removed.length + b.transactions.removed.length ∧
      a₂.plans.added.length = a.plans.added.length + b.plans.added.length ∧
      a₂.plans.changed.length = a.plans.changed.length + b.plans.changed.length ∧
      a₂.plans.removed.length = a.plans.removed.length + b.plans.removed.length := by
  refine ⟨_, rfl, ?_⟩
  simp [Changelog.append, List.length_append]

/-- C4: for every changelog `c` over byte-string entities, `to_vec` succeeds
and `from_slice` of the produced bytes succeeds and yields `c` back: the same
twelve sequences with the same elements in the same order. -/
theorem changelog_roundtrip (c : ByteChangelog) :
    ∃ bytes, Changelog.to_vec c = Except.ok bytes ∧
      Changelog.from_slice bytes = Except.ok c := by
  refine ⟨encodeChangelog c, rfl, ?_⟩
  have h : decodeChangelog (encodeChangelog c) = some c := by
    simp [decodeChangelog, encodeChangelog, List.append_assoc,
      decSimple_encSimple, decSimple_encSimple_nil]
  simp [Changelog.from_slice, h]

/-- C8: the destruction handler of a secure buffer overwrites every owned
byte with zero while preserving the length of the owned sequence: the state
of the buffer at the moment the backing memory is released is all-zero. Rust
runs this handler on every destruction path of the value — normal scope
exit, early return, and unwinding on a propagated error alike. -/
theorem crypto_buffer_drop_zeroizes (buf : CryptoBuffer) :
    (CryptoBuffer.drop buf).data = List.replicate buf.data.length 0 := by
  simp [CryptoBuffer.drop, CryptoBuffer.destroy_data]

/-- C9: `destructive_from` copies the source bytes into the constructed
buffer, and immediately after construction the source backing storage is
all-zero with its length preserved. -/
theorem destructive_from_spec (s : List Nat) :
    (CryptoBuffer.destructive_from s).1.data = s ∧
      (CryptoBuffer.destructive_from s).2 = List.replicate s.length 0 ∧
      (CryptoBuffer.destructive_from s).2.length = s.length := by
  refine ⟨rfl, ?_, ?_⟩ <;>
    simp [CryptoBuffer.destructive_from, CryptoBuffer.destroy_data]

/-- C1: evaluation of the code at a state refuting the remote-diff
collection. Instance `B` has published the diff bytes `[3, 1, 2, 3]` in the
repository, which the collaborator would deserialize successfully (to the
diff `4`), so the claim requires `merge_diffs` to receive the one-element
collection holding the diff of `B`; the round run for instance `A` instead
hands `merge_diffs` the empty collection — the source binds `remote_diffs`
to a fresh empty vector and never reads the other instance files. -/
theorem perform_sync_drops_remote_diffs :
    (GitSyncEngine.perform_sync twoInstanceState 5 "A" natSyncable ()).2.1 =
      [SyncEvent.pullRemote, SyncEvent.diffSince 5, SyncEvent.mergeDiffs [],
        SyncEvent.serializeDiff "A",
        SyncEvent.commitCreated [] "Updates from instance A",
        SyncEvent.pushRemote] ∧
    natSyncable.deserialize_diff "B" [3, 1, 2, 3] = Except.ok 4 := by
  constructor <;> rfl

/-- C2 (counterexample): a concrete round refuting the claimed base of the
local diff. In the modelled scenario the last successful synchronization of
the instance happened at time `3`, while the wall clock at the call reads
`5`; the engine calls `diff_since` with base `5` — `chrono::Utc::now()` at
the call site — and not with the last-successful-sync time `3`. -/
theorem perform_sync_base_is_now_not_last_sync :
    ((GitSyncEngine.perform_sync twoInstanceState 5 "A" natSyncable ()).2.1).get? 1 =
      some (SyncEvent.diffSince 5) ∧
    ((GitSyncEngine.perform_sync twoInstanceState 5 "A" natSyncable ()).2.1).get? 1 ≠
      some (SyncEvent.diffSince 3) := by
  constructor
  · rfl
  · decide

/-- C2 (amended): in every call to `perform_sync`, the local diff is computed
as `diff_since(now)` where `now` is the wall-clock moment of the call: the
second observable call of every round, on every path, is `diff_since` with
exactly the `now` argument of the round. -/
theorem perform_sync_diff_since_uses_now {D Ctx : Type} (st : GitSyncEngineState)
    (now : Nat) (inst : String) (syncable : SyncableModel D Ctx) (ctx : Ctx) :
    ((GitSyncEngine.perform_sync st now inst syncable ctx).2.1).get? 1 =
      some (SyncEvent.diffSince now) := by
  unfold GitSyncEngine.perform_sync
  cases hd : syncable.diff_since now with
  | error e => rfl
  | ok d =>
    cases hm : syncable.merge_diffs [] with
    | error e => simp [hm]
    | ok u =>
      by_cases hf : (st.files.lookup inst).isSome
      · cases hs : syncable.serialize_diff d inst ctx with
        | error e => simp [hm, hf, hs]
        | ok bytes =>
          cases hc : GitSyncEngine.commit_files
              { st with files := setFile st.files inst bytes } inst with
          | error e => simp [hm, hf, hs, hc]
          | ok p => simp [hm, hf, hs, hc]
      · simp [hm, hf]

/-- C5: evaluation of the code on a freshly created repository. The engine
opens the diff file of the instance with write and truncate but without the
create option, and a fresh repository contains no instance file, so the round
returns an input/output error and creates no commit — it does not succeed
with a first zero-parent log entry as the specification scenario demands.
Commit creation itself (reached only when the file exists) does give the
first commit zero parents, so the defect is the missing create option on the
file open. -/
theorem perform_sync_fresh_repo_fails :
    GitSyncEngine.perform_sync freshEngineState 0 "A" natSyncable () =
      (Except.error Error.ioError,
        [SyncEvent.pullRemote, SyncEvent.diffSince 0, SyncEvent.mergeDiffs []],
        freshEngineState) := by
  rfl

/-- C10: when the diff file of the calling instance does not exist in the
repository, a round whose collaborator calls succeed returns an input/output
error — the file is opened for writing with truncation but without creation —
and leaves the repository state untouched: no commit is created and `HEAD`
does not move. -/
theorem perform_sync_missing_file_io_error {D Ctx : Type}
    (st : GitSyncEngineState) (now : Nat) (inst : String)
    (syncable : SyncableModel D Ctx) (ctx : Ctx) (d : D)
    (hfile : st.files.lookup inst = none)
    (hdiff : syncable.diff_since now = Except.ok d)
    (hmerge : syncable.merge_diffs [] = Except.ok ()) :
    GitSyncEngine.perform_sync st now inst syncable ctx =
      (Except.error Error.ioError,
        [SyncEvent.pullRemote, SyncEvent.diffSince now, SyncEvent.mergeDiffs []],
        st) := by
  unfold GitSyncEngine.perform_sync
  simp [hdiff, hmerge, hfile]

/-- C10 (witness): the missing-file theorem applied to the fresh repository
state at time `7` for instance `B` and the concrete collaborator. -/
theorem perform_sync_missing_file_io_error_witness :
    GitSyncEngine.perform_sync freshEngineState 7 "B" natSyncable () =
      (Except.error Error.ioError,
        [SyncEvent.pullRemote, SyncEvent.diffSince 7, SyncEvent.mergeDiffs []],
        freshEngineState) :=
  perform_sync_missing_file_io_error freshEngineState 7 "B" natSyncable () 7
    rfl rfl rfl

/-- C6: when the repository already has a configured remote, `add_remote`
fails with the remote-already-exists error and registers nothing (the state
is unchanged); when no remote is configured, it succeeds and registers the
given url as the single remote, under the conventional name `origin`; and a
second `add_remote` without an intervening `remove_remote` after a successful
first one fails with the remote-already-exists error. -/
theorem add_remote_spec (st : GitSyncEngineState) (r r₂ : String) :
    (st.remotes ≠ [] →
      GitSyncEngine.add_remote st r = (Except.error Error.remoteAlreadyExists, st)) ∧
    (st.remotes = [] →
      GitSyncEngine.add_remote st r =
        (Except.ok (), { st with remotes := [("origin", r)] })) ∧
    ((GitSyncEngine.add_remote st r).1 = Except.ok () →
      (GitSyncEngine.add_remote (GitSyncEngine.add_remote st r).2 r₂).1 =
        Except.error Error.remoteAlreadyExists) := by
  unfold GitSyncEngine.add_remote
  cases h : st.remotes with
  | nil => simp [h]
  | cons p rest => simp [h]

/-- C6 (witness): `add_remote` on the fresh state with no remote succeeds and
registers the url as the single remote, and calling it again on the resulting
state fails with the remote-already-exists error. -/
theorem add_remote_spec_witness :
    GitSyncEngine.add_remote freshEngineState "url-a" =
      (Except.ok (), { freshEngineState with remotes := [("origin", "url-a")] }) ∧
    (GitSyncEngine.add_remote
        (GitSyncEngine.add_remote freshEngineState "url-a").2 "url-b").1 =
      Except.error Error.remoteAlreadyExists :=
  ⟨(add_remote_spec freshEngineState "url-a" "url-b").2.1 rfl,
   (add_remote_spec freshEngineState "url-a" "url-b").2.2 rfl⟩

/-- C7: `change_remote` behaves exactly as the specified composition of
`remove_remote` followed by `add_remote`; when it succeeds, the only
configured remote afterwards is the new one; and it is not atomic — on any
engine-reachable state (remote list empty or a single `origin` entry), after
the removal step succeeds the intermediate state has no remote configured, so
a failure between the two steps leaves no remote. -/
theorem change_remote_spec (st : GitSyncEngineState) (r : String) :
    GitSyncEngine.change_remote st r = change_remote_spec_composition st r ∧
    ((GitSyncEngine.change_remote st r).1 = Except.ok () →
      ((GitSyncEngine.change_remote st r).2).remotes = [("origin", r)]) ∧
    (remoteInv st → (GitSyncEngine.remove_remote st).1 = Except.ok () →
      ((GitSyncEngine.remove_remote st).2).remotes = []) := by
  refine ⟨?_, ?_, ?_⟩
  · unfold GitSyncEngine.change_remote change_remote_spec_composition
    rcases hrem : GitSyncEngine.remove_remote st with ⟨res, st₁⟩
    cases res <;> simp
  · unfold GitSyncEngine.change_remote GitSyncEngine.remove_remote
      GitSyncEngine.add_remote
    by_cases hl : (st.remotes.lookup "origin").isSome
    · by_cases he : (st.remotes.filter (fun p => p.1 != "origin")).isEmpty
      · intro _
        simp [hl, he, List.isEmpty_iff.mp he]
      · simp [hl, he]
    · simp [hl]
  · intro hinv hok
    unfold GitSyncEngine.remove_remote at hok ⊢
    rcases hinv with h | ⟨u, h⟩
    · simp [h] at hok
    · simp [h]

/-- C7 (witness): the change-remote theorem applied to the state whose single
remote is `origin` at `old-url`: the implementation agrees with the
remove-then-add composition, the resulting remote list is exactly the new
url under `origin`, and the intermediate state after removal has no remote. -/
theorem change_remote_spec_witness :
    GitSyncEngine.change_remote singleRemoteState "new-url" =
      change_remote_spec_composition singleRemoteState "new-url" ∧
    ((GitSyncEngine.change_remote singleRemoteState "new-url").2).remotes =
      [("origin", "new-url")] ∧
    ((GitSyncEngine.remove_remote singleRemoteState).2).remotes = [] :=
  ⟨(change_remote_spec singleRemoteState "new-url").1,
   (change_remote_spec singleRemoteState "new-url").2.1 rfl,
   (change_remote_spec singleRemoteState "new-url").2.2
     (Or.inr ⟨"old-url", rfl⟩) rfl⟩
